import Mathlib

/-!
Verification of the exapp-sql connection pool / query dispatcher core
(`src/xpart-sql.js` and `src/xpart-sql-pgsql.js`).

The JavaScript source is shallowly embedded as pure Lean functions over an
explicit machine state:

* `SQLClientSt` mirrors the mutable fields of `SQLClient` (`_txId`,
  `_txState`, `_failed`, `_pooled`, `_returnToPool`, and the `_qs`/`_cb`
  pair stored by `PGSQLClient._query`).
* `DriverInternal` mirrors `SQLDriver.this._internal`.  The source contains
  two distinct delayed-stop slots because `stop()` assigns
  `internal._onDelayedStop` (creating a fresh property) while `_idle()` and
  the double-stop guard read `internal.onDelayedStop`; these are modelled as
  the two fields `onDelayedStop` (read side, as initialized in the
  constructor) and `uOnDelayedStop` (the underscore-prefixed property that
  `stop()` writes).
* `Machine` adds the effect log (`events`): backend queries (`impl.query`),
  backend destruction (`impl.end`), connection requests, `setImmediate`
  callback invocations, and `app.error`/`app.silly` logging, recorded in
  issue order.
* Asynchronous completions (connection established, backend query finished)
  are external events; they are delivered by the trace interpreter `runOp`
  which mirrors how the callbacks bound in the source re-enter the driver
  (`_onClientCreated`, `PGSQLClient._onQuery`).

The configured compiler is the default `nopCompiler`, whose `compile` is
`String(q)`; queries are therefore already strings and `compileQ` is the
identity, exactly as in the source default.

Recursion in the source (`_handleQueue` dispatching a `begin` whose error
path calls `_onClientIdle`, which calls `_handleQueue` again) consumes one
queue item per round, so it terminates; the embedding makes this explicit
with a fuel parameter that is always given a value larger than any chain
arising in the runs considered.
-/

set_option maxRecDepth 4000

namespace XpartSql

/-- The default `nopCompiler`: `compile(q) { return String(q); }`.  Queries
are modelled as strings, so this is the identity function. -/
def compileQ (q : String) : String := q

/-- Values handed to user callbacks through `setImmediate(cb, a, b)`. -/
inductive SQLValue where
  | vNull : SQLValue
  | vSqlError (msg : String) : SQLValue
  | vBackendError (msg : String) : SQLValue
  | vClient (cid : Nat) : SQLValue
  | vResult (count : Nat) : SQLValue
deriving Repr, DecidableEq

/-- Observable effects of the driver, recorded in issue order. -/
inductive Event where
  | backendQuery (cid : Nat) (qs : String) : Event
  | backendEnd (cid : Nat) : Event
  | backendConnectReq : Event
  | cbCall1 (cb : Option Nat) (a : SQLValue) : Event
  | cbCall2 (cb : Nat) (a b : SQLValue) : Event
  | appError (a b : String) : Event
  | appSilly (a : String) : Event
deriving Repr, DecidableEq

/-- State of one `SQLClient` (the `_next` pool link is represented by the
position of the client inside the `clientPool` list). -/
structure SQLClientSt where
  cid : Nat
  txId : Int := -1
  txState : String := ""
  failed : Bool := false
  pooled : Bool := false
  returnToPool : Bool := true
  qsStored : String := ""
  cbStored : Option Nat := none
deriving Repr, DecidableEq

/-- One work-queue item as built by `_addToQueue` (`qs = none` encodes the
`null` query used for transaction-begin requests). -/
structure QueueItem where
  qs : Option String
  cb : Nat
deriving Repr, DecidableEq

/-- Embeds `SQLDriver.this._internal`.  `queueFirst`/`queueLast`/`queueSize` are
represented by the single list `queueItems` (head = `queueFirst`). -/
structure DriverInternal where
  status : String := "pending"
  clientsCount : Int := 0
  clientsActive : Int := 0
  clientsMaximum : Int := 20
  failuresCount : Int := 0
  failuresMaximum : Int := 20
  clientPool : List SQLClientSt := []
  queueItems : List QueueItem := []
  txIdGenerator : Int := 0
  onDelayedStop : Option Nat := none
  uOnDelayedStop : Option Nat := none
  debugQueries : Bool := false
  debugResults : Bool := false
deriving Repr, DecidableEq

/-- Whole-system state: driver internals, clients held by the user through a
transaction handle (`held`), clients with an in-flight backend query
(`outstanding`), the id supply for new clients, and the effect log. -/
structure Machine where
  internal : DriverInternal := {}
  held : List SQLClientSt := []
  outstanding : List SQLClientSt := []
  nextCid : Nat := 0
  events : List Event := []
deriving Repr, DecidableEq

/-- Append one effect to the log. -/
def emit (m : Machine) (e : Event) : Machine :=
  { m with events := m.events ++ [e] }

/-- Embeds `PGSQLDriver._destroyClient`: `client._impl.end()`. -/
def destroyClient (m : Machine) (c : SQLClientSt) : Machine :=
  emit m (.backendEnd c.cid)

/-- Embeds `SQLDriver._destroyPool`: walks the pool calling `_destroyClient`, then
subtracts the pool size from BOTH `clientsCount` and `clientsActive` and
clears the pool. -/
def destroyPool (m : Machine) : Machine :=
  let pool := m.internal.clientPool
  let n : Int := pool.length
  let m := pool.foldl destroyClient m
  { m with internal := { m.internal with
      clientsCount := m.internal.clientsCount - n,
      clientsActive := m.internal.clientsActive - n,
      clientPool := [] } }

/-- Embeds `SQLDriver._stop`: sets status `"stopped"`, clears `onDelayedStop`, and
issues `setImmediate(cb, null)`.  The `cb` may be absent (`null` in JS) when
`_idle()` passes the never-written `internal.onDelayedStop`. -/
def stopInternal (m : Machine) (cb : Option Nat) : Machine :=
  let m := { m with internal :=
    { m.internal with status := "stopped", onDelayedStop := none } }
  emit m (.cbCall1 cb .vNull)

/-- Embeds `SQLDriver._start`: sets status `"running"` and issues
`setImmediate(cb, null)`. -/
def startInternal (m : Machine) (cb : Nat) : Machine :=
  let m := { m with internal := { m.internal with status := "running" } }
  emit m (.cbCall1 (some cb) .vNull)

/-- Embeds `SQLDriver._getClientFromPool`: unlinks the head of the pool, increments
`clientsActive` and clears `_pooled`.  Returns `none` when the pool is empty
(the source requires callers to check `internal.clientPool` first). -/
def getClientFromPool (m : Machine) : Option (SQLClientSt × Machine) :=
  match m.internal.clientPool with
  | [] => none
  | c :: rest =>
    some ({ c with pooled := false },
      { m with internal := { m.internal with
          clientPool := rest,
          clientsActive := m.internal.clientsActive + 1 } })

/-- Embeds `SQLDriver._idle`: when the driver is `"stopping"` and no client is
active, drain the pool and finish via `_stop(internal.onDelayedStop)` —
note that the read is from the `onDelayedStop` field, not from the
`_onDelayedStop` property that `stop()` assigns. -/
def idleHook (m : Machine) : Machine :=
  if m.internal.clientsActive = 0 ∧ m.internal.status = "stopping" then
    let cb := m.internal.onDelayedStop
    stopInternal (destroyPool m) cb
  else m

/-- Embeds `SQLDriver._releaseClient`: pool the client when the driver is running
and the client has not failed (resetting its transaction fields), otherwise
decrement both counters and destroy it; in both cases run `_idle()`. -/
def releaseClient (m : Machine) (c : SQLClientSt) : Machine :=
  let m :=
    if m.internal.status = "running" ∧ c.failed = false then
      let c := { c with txId := -1, txState := "", pooled := true,
                        returnToPool := true }
      { m with internal := { m.internal with
          clientsActive := m.internal.clientsActive - 1,
          clientPool := c :: m.internal.clientPool } }
    else
      let m := { m with internal := { m.internal with
          clientsCount := m.internal.clientsCount - 1,
          clientsActive := m.internal.clientsActive - 1 } }
      destroyClient m c
  idleHook m

/-- Embeds `PGSQLClient._query`: stores the SQL string and callback on the client,
issues `impl.query(qs, onQuery)`, and the client becomes outstanding. -/
def clientQueryDispatch (m : Machine) (c : SQLClientSt) (qs : String)
    (cb : Nat) : Machine :=
  let c := { c with qsStored := qs, cbStored := some cb }
  let m := emit m (.backendQuery c.cid qs)
  { m with outstanding := m.outstanding ++ [c] }

/-- Embeds `SQLClient.query`: compiles the query; when in a transaction whose
`_txState` is still `""`, prepends `"BEGIN;\n"` and moves `_txState` to
`"PENDING"`; then dispatches via `_query`. -/
def clientQuery (m : Machine) (c : SQLClientSt) (q : String)
    (cb : Nat) : Machine :=
  let qs := compileQ q
  if c.txId ≠ -1 ∧ c.txState = "" then
    clientQueryDispatch m { c with txState := "PENDING" }
      ("BEGIN;\n" ++ qs) cb
  else
    clientQueryDispatch m c qs cb

mutual

/-- Embeds `SQLDriver._scheduleWork`: with a non-empty queue, either dispatch the
head onto a pooled client, or (pool empty, `clientsCount < clientsMaximum`)
increment `clientsCount` and request a new client, or do nothing. -/
def scheduleWork : Nat → Machine → Machine
  | 0, m => m
  | fuel+1, m =>
    match m.internal.queueItems with
    | [] => m
    | _ :: _ =>
      match getClientFromPool m with
      | some (c, m) => handleQueue fuel m c
      | none =>
        if m.internal.clientsCount < m.internal.clientsMaximum then
          let m := { m with internal := { m.internal with
              clientsCount := m.internal.clientsCount + 1 } }
          emit m .backendConnectReq
        else m

/-- Embeds `SQLDriver._handleQueue`: pops the head of the queue and dispatches it
on `client` — `client.query` when `qs` is non-null, `client.begin` when it
is null.  Callers guarantee the queue is non-empty. -/
def handleQueue : Nat → Machine → SQLClientSt → Machine
  | 0, m, _ => m
  | fuel+1, m, c =>
    match m.internal.queueItems with
    | [] => m
    | item :: rest =>
      let m := { m with internal := { m.internal with queueItems := rest } }
      match item.qs with
      | some qs => clientQuery m c qs item.cb
      | none => clientBegin fuel m c item.cb

/-- Embeds `SQLDriver._onClientIdle`: hand the client the next queue item, or
release it. -/
def onClientIdle : Nat → Machine → SQLClientSt → Machine
  | 0, m, _ => m
  | fuel+1, m, c =>
    match m.internal.queueItems with
    | [] => releaseClient m c
    | _ :: _ => handleQueue fuel m c

/-- Embeds `SQLClient.begin`: fails (via `setImmediate(cb, null, SQLError)`, the
error in the SECOND argument) and goes idle when already in a transaction;
otherwise takes a fresh transaction id, clears `_returnToPool`, and hands
itself to the caller via `setImmediate(cb, null, this)`. -/
def clientBegin : Nat → Machine → SQLClientSt → Nat → Machine
  | 0, m, _, _ => m
  | fuel+1, m, c, cb =>
    if c.txId ≠ -1 then
      let m := emit m (.cbCall2 cb .vNull (.vSqlError
        ("Cannot BEGIN while being in a transaction state \x7btxId=" ++
          toString c.txId ++ "\x7d")))
      onClientIdle fuel m c
    else
      let txId := m.internal.txIdGenerator + 1
      let m := { m with internal :=
        { m.internal with txIdGenerator := txId } }
      let c := { c with txId := txId, txState := "", returnToPool := false }
      let m := emit m (.cbCall2 cb .vNull (.vClient c.cid))
      { m with held := m.held ++ [c] }

end

/-- Embeds `SQLClient.commit([q,] cb)`: out of a transaction it fails (error in the
second callback argument) and goes idle; an empty transaction with no
trailing statement completes with `cb(null, null)` and goes idle; otherwise
it builds the final statement (prepending `BEGIN;` for a not-yet-started
transaction, appending `COMMIT;`), marks `_txState = "COMMIT"`,
`_returnToPool = true`, and dispatches through `query`. -/
def clientCommit (fuel : Nat) (m : Machine) (c : SQLClientSt)
    (qArg : Option String) (cb : Nat) : Machine :=
  let q := qArg.getD ""
  let qs := compileQ q
  if c.txId = -1 then
    let m := emit m (.cbCall2 cb .vNull
      (.vSqlError "Cannot COMMIT while not being in a transaction state"))
    onClientIdle fuel m c
  else if c.txState = "" ∧ qs = "" then
    let m := emit m (.cbCall2 cb .vNull .vNull)
    onClientIdle fuel m c
  else
    let qs := if c.txState = "" then "BEGIN;\n" ++ qs else qs
    let qs := if qs = "" then "COMMIT;" else qs ++ "\nCOMMIT;"
    clientQuery m
      { c with txState := "COMMIT", returnToPool := true } qs cb

/-- Embeds `SQLClient.rollback(cb)`: out of a transaction it fails (error in the
second callback argument) and goes idle; an empty transaction completes with
`cb(null, null)` and goes idle; otherwise dispatches `"ROLLBACK;"`. -/
def clientRollback (fuel : Nat) (m : Machine) (c : SQLClientSt)
    (cb : Nat) : Machine :=
  if c.txId = -1 then
    let m := emit m (.cbCall2 cb .vNull
      (.vSqlError "Cannot ROLLBACK while not being in a transaction state"))
    onClientIdle fuel m c
  else if c.txState = "" then
    let m := emit m (.cbCall2 cb .vNull .vNull)
    onClientIdle fuel m c
  else
    clientQuery m
      { c with txState := "ROLLBACK", returnToPool := true } "ROLLBACK;" cb

/-- Embeds `PGSQLClient._onQuery`: purge the stored `_qs`/`_cb`, release the client
(`driver._onClientIdle`) when `_returnToPool` is set (otherwise the user
keeps holding it), then on error log SQL and error via `app.error` and call
`cb(err, null)`; on success optionally debug-log and call
`cb(null, rows-and-count)`. -/
def onQueryDone (fuel : Nat) (m : Machine) (c : SQLClientSt)
    (err : Option String) (rowCount : Nat) : Machine :=
  let qs := c.qsStored
  let cb := c.cbStored
  let c := { c with qsStored := "", cbStored := none }
  let m :=
    if c.returnToPool then onClientIdle fuel m c
    else { m with held := m.held ++ [c] }
  match err with
  | some e =>
    let m := emit m (.appError ("[xpart.sql] Query:\n" ++ qs ++ "\n")
      ("[xpart.sql] " ++ e))
    match cb with
    | some cbid => emit m (.cbCall2 cbid (.vBackendError e) .vNull)
    | none => m
  | none =>
    let m :=
      if m.internal.debugQueries then
        emit m (.appSilly ("[xpart.sql] Query:\n" ++ qs))
      else m
    let m :=
      if m.internal.debugResults then emit m (.appSilly "  [rows]") else m
    match cb with
    | some cbid => emit m (.cbCall2 cbid .vNull (.vResult rowCount))
    | none => m

/-- Embeds `SQLDriver._addToQueue`: append `{qs, cb}` at the tail of the FIFO and
call `_scheduleWork`. -/
def addToQueue (fuel : Nat) (m : Machine) (qs : Option String)
    (cb : Nat) : Machine :=
  let m := { m with internal := { m.internal with
      queueItems := m.internal.queueItems ++ [⟨qs, cb⟩] } }
  scheduleWork fuel m

/-- Embeds `SQLDriver._onClientCreated`: on success bump `clientsActive` and send
the fresh client through the idle path; on failure log, roll back
`clientsCount`, bump `failuresCount`, and retry via `_scheduleWork` only
while no client exists and the failure budget is not exhausted (the
exhausted branch is the source's empty `// TODO:`). -/
def onClientCreated (fuel : Nat) (m : Machine) (ok : Bool) : Machine :=
  if ok then
    let c : SQLClientSt := { cid := m.nextCid }
    let m := { m with
      nextCid := m.nextCid + 1,
      internal := { m.internal with
        clientsActive := m.internal.clientsActive + 1 } }
    onClientIdle fuel m c
  else
    let m := emit m (.appError "Failed to create a new SQLClient: " "err")
    let m := { m with internal := { m.internal with
        clientsCount := m.internal.clientsCount - 1,
        failuresCount := m.internal.failuresCount + 1 } }
    if m.internal.clientsCount = 0 then
      if m.internal.failuresCount ≥ m.internal.failuresMaximum then m
      else scheduleWork fuel m
    else m

/-- Embeds `SQLDriver.start`. -/
def driverStart (m : Machine) (cb : Nat) : Machine :=
  if m.internal.status ≠ "pending" then
    emit m (.cbCall2 cb (.vSqlError
      ("The SQL driver has been already started (driver status: " ++
        m.internal.status ++ ")")) .vNull)
  else
    startInternal m cb

/-- Embeds `SQLDriver.stop`: refuse unless running with no delayed stop recorded;
otherwise move to `"stopping"` and either finish now (no active client) or
record the callback — into the `_onDelayedStop` property (`uOnDelayedStop`),
while `_idle()` will later read the distinct `onDelayedStop` field. -/
def driverStop (m : Machine) (cb : Nat) : Machine :=
  if m.internal.status ≠ "running" ∨ m.internal.onDelayedStop ≠ none then
    emit m (.cbCall2 cb (.vSqlError
      ("The SQL driver has been already stopped (driver status: " ++
        m.internal.status ++ ")")) .vNull)
  else
    let m := { m with internal :=
      { m.internal with status := "stopping" } }
    if m.internal.clientsActive ≠ 0 then
      { m with internal := { m.internal with uOnDelayedStop := some cb } }
    else
      stopInternal (destroyPool m) (some cb)

/-- Remove the client with id `cid` from the user-held set. -/
def takeHeld (m : Machine) (cid : Nat) : Option (SQLClientSt × Machine) :=
  match m.held.find? (fun c => c.cid == cid) with
  | none => none
  | some c =>
    some (c, { m with held := m.held.filter (fun d => !(d.cid == cid)) })

/-- Remove the client with id `cid` from the outstanding set. -/
def takeOutstanding (m : Machine) (cid : Nat) :
    Option (SQLClientSt × Machine) :=
  match m.outstanding.find? (fun c => c.cid == cid) with
  | none => none
  | some c =>
    some (c,
      { m with outstanding := m.outstanding.filter (fun d => !(d.cid == cid)) })

/-- Embeds `tx.query(qs, cb)` on a transaction handle: the held client runs
`SQLClient.query`. -/
def txQuery (m : Machine) (cid : Nat) (q : String) (cb : Nat) : Machine :=
  match takeHeld m cid with
  | some (c, m) => clientQuery m c q cb
  | none => m

/-- Embeds `SQLDriver.query(q, cb, tx)`: compile first; a non-null `tx` delegates
to `tx.query(qs, cb)` BEFORE the driver-status check; otherwise require
status `"running"`, then use a pooled client or enqueue. -/
def driverQuery (fuel : Nat) (m : Machine) (q : String) (cb : Nat)
    (tx : Option Nat) : Machine :=
  let qs := compileQ q
  match tx with
  | some cid => txQuery m cid qs cb
  | none =>
    if m.internal.status ≠ "running" then
      emit m (.cbCall2 cb (.vSqlError
        ("The SQL driver cannot perform the query (driver status: " ++
          m.internal.status ++ ")")) .vNull)
    else
      match getClientFromPool m with
      | some (c, m) => clientQuery m c qs cb
      | none => addToQueue fuel m (some qs) cb

/-- Embeds `SQLDriver.begin(cb)`: require status `"running"`, then `begin` on a
pooled client or enqueue a `null` item. -/
def driverBegin (fuel : Nat) (m : Machine) (cb : Nat) : Machine :=
  if m.internal.status ≠ "running" then
    emit m (.cbCall2 cb (.vSqlError
      ("The SQL driver cannot begin a new transaction (driver status: " ++
        m.internal.status ++ ")")) .vNull)
  else
    match getClientFromPool m with
    | some (c, m) => clientBegin fuel m c cb
    | none => addToQueue fuel m none cb

/-- External trace operations: user calls plus asynchronous completions
(connection established / backend query finished) delivered by the event
loop. -/
inductive Op where
  | opStart (cb : Nat)
  | opStop (cb : Nat)
  | opQuery (q : String) (cb : Nat)
  | opBegin (cb : Nat)
  | opCreated (ok : Bool)
  | opDone (cid : Nat) (err : Option String) (rowCount : Nat)
  | opTxQuery (cid : Nat) (q : String) (cb : Nat)
  | opTxCommit (cid : Nat) (q : Option String) (cb : Nat)
  | opTxRollback (cid : Nat) (cb : Nat)
deriving Repr, DecidableEq

/-- Fuel bound; far larger than any dispatch chain in the traces below. -/
def bigFuel : Nat := 40

/-- One step of the trace interpreter. -/
def runOp (m : Machine) : Op → Machine
  | .opStart cb => driverStart m cb
  | .opStop cb => driverStop m cb
  | .opQuery q cb => driverQuery bigFuel m q cb none
  | .opBegin cb => driverBegin bigFuel m cb
  | .opCreated ok => onClientCreated bigFuel m ok
  | .opDone cid err n =>
    match takeOutstanding m cid with
    | some (c, m) => onQueryDone bigFuel m c err n
    | none => m
  | .opTxQuery cid q cb => txQuery m cid q cb
  | .opTxCommit cid q cb =>
    match takeHeld m cid with
    | some (c, m) => clientCommit bigFuel m c q cb
    | none => m
  | .opTxRollback cid cb =>
    match takeHeld m cid with
    | some (c, m) => clientRollback bigFuel m c cb
    | none => m

/-- A freshly constructed `SQLDriver` (status `"pending"`, all counters 0,
default `maxConnections = 20`). -/
def initMachine : Machine := {}

/-- Run a trace from the fresh driver. -/
def runOps (ops : List Op) : Machine := ops.foldl runOp initMachine

/-- The backend queries issued during a run, in order. -/
def backendCalls (m : Machine) : List (Nat × String) :=
  m.events.filterMap (fun e =>
    match e with
    | .backendQuery cid qs => some (cid, qs)
    | _ => none)

/-- Does the event invoke user callback `cbid`? -/
def invokesCb (cbid : Nat) : Event → Bool
  | .cbCall1 (some c) _ => c == cbid
  | .cbCall2 c _ _ => c == cbid
  | _ => false

/-- Callback ids of successful query completions (`cb(null, {rows,count})`),
in firing order. -/
def successCbs (m : Machine) : List Nat :=
  m.events.filterMap (fun e =>
    match e with
    | .cbCall2 cb _ (.vResult _) => some cb
    | _ => none)

/-- Is the event a client destruction (`impl.end()`)? -/
def isBackendEnd : Event → Bool
  | .backendEnd _ => true
  | _ => false

/-!
Abstract model of the work queue alone, for the FIFO ordering claim:
`qstep (q, d) op` applies one queue operation, where `q` is the current
queue contents (head = `queueFirst`) and `d` is the sequence of items
dispatched so far.  `enq` is the list effect of `_addToQueue` (append at
`queueLast`); `deq` is the list effect of `_handleQueue` (pop `queueFirst`
and dispatch it).  A `deq` on an empty queue is a no-op (the source's
callers check non-emptiness first).
-/

/-- A queue operation: enqueue one item, or dequeue-and-dispatch the head. -/
inductive QOp where
  | enq (it : QueueItem) : QOp
  | deq : QOp
deriving Repr, DecidableEq

/-- One step of the queue model (list effect of `_addToQueue` /
`_handleQueue`). -/
def qstep : List QueueItem × List QueueItem → QOp →
    List QueueItem × List QueueItem
  | (q, d), .enq it => (q ++ [it], d)
  | (q, d), .deq =>
    match q with
    | [] => (q, d)
    | it :: rest => (rest, d ++ [it])

/-- Run a sequence of queue operations from the empty queue; returns the
remaining queue and the dispatched sequence. -/
def qrun (ops : List QOp) : List QueueItem × List QueueItem :=
  ops.foldl qstep ([], [])

/-- The items enqueued by a queue-operation sequence, in enqueue order. -/
def enqueuedOf : List QOp → List QueueItem
  | [] => []
  | .enq it :: rest => it :: enqueuedOf rest
  | .deq :: rest => enqueuedOf rest

/-- Invariant of the queue model: dispatched items followed by the waiting
items always equal the full enqueue-order sequence. -/
theorem qstep_invariant (ops : List QOp) (q d : List QueueItem) :
    (ops.foldl qstep (q, d)).2 ++ (ops.foldl qstep (q, d)).1
      = d ++ q ++ enqueuedOf ops := by
  induction ops generalizing q d with
  | nil => simp [enqueuedOf]
  | cons op rest ih =>
    cases op with
    | enq it => simp [qstep, enqueuedOf, ih]
    | deq =>
      cases q with
      | nil => simp [qstep, enqueuedOf, ih]
      | cons it tl => simp [qstep, enqueuedOf, ih]

/-!
Concrete traces used by the claims.
-/

/-- C1 trace: start, one query (creates a client), successful completion
(client is pooled), then `stop()` on the now-idle driver, which runs
`_destroyPool` over the one pooled client. -/
def c1ops : List Op :=
  [.opStart 0, .opQuery "SELECT 1" 1, .opCreated true, .opDone 0 none 0,
   .opStop 2]

/-- C2 trace: `stop 2` arrives while the single query is still in flight
(`clientsActive = 1`); the query then completes, releasing the last active
client. -/
def c2ops : List Op :=
  [.opStart 0, .opQuery "SELECT 1" 1, .opCreated true, .opStop 2,
   .opDone 0 none 0]

/-- C3 trace (driver level): `begin`, one transaction query `X`, its
completion, `commit()` with no trailing statement, its completion. -/
def c3ops (X : String) : List Op :=
  [.opStart 0, .opBegin 1, .opCreated true, .opTxQuery 0 X 2,
   .opDone 0 none 0, .opTxCommit 0 none 3, .opDone 0 none 0]

/-- Scenario `begin` then `commit(X)` (trailing statement, no intermediate
query): the single combined `BEGIN;\n X \nCOMMIT;` round-trip. -/
def c3commitOps (X : String) : List Op :=
  [.opStart 0, .opBegin 1, .opCreated true, .opTxCommit 0 (some X) 2,
   .opDone 0 none 0]

/-- A running driver with one client checked out (the client is passed
separately to the client-level functions). -/
def runningOneActive : Machine :=
  { internal := { status := "running", clientsActive := 1 } }

/-- C3 composition at client level: `begin` on a fresh client, one
transaction query `X`, its completion, then `commit()`. -/
def c3client (X : String) : Machine :=
  let m1 := clientBegin 2 runningOneActive { cid := 0 } 1
  let m2 := txQuery m1 0 X 2
  let m3 :=
    match takeOutstanding m2 0 with
    | some (c, m) => onQueryDone 2 m c none 0
    | none => m2
  match takeHeld m3 0 with
  | some (c, m) => clientCommit 2 m c none 3
  | none => m3

/-- C4 trace: one query whose backend completion reports an error while the
driver is running. -/
def c4ops : List Op :=
  [.opStart 0, .opQuery "SELECT 1" 1, .opCreated true,
   .opDone 0 (some "connection lost") 0]

/-- A client that is inside a transaction (`_txId = 1`). -/
def inTxClient : SQLClientSt := { cid := 0, txId := 1 }

/-- C9 trace: requests A (callback 1) and B (callback 2) are both enqueued
while the pool is cold; two clients are created, A is dispatched onto
client 0 first and B onto client 1, but client 1's backend answer arrives
first. -/
def c9ops : List Op :=
  [.opStart 0, .opQuery "A" 1, .opQuery "B" 2, .opCreated true,
   .opCreated true, .opDone 1 none 0, .opDone 0 none 0]

/-!
The claims.
-/

/-- C1.  The claim states that for every sequence of driver operations the
pool counters satisfy `0 ≤ clientsActive ≤ clientsCount ≤ clientsMaximum`,
and in particular that destroying the idle pool never drives
`clientsActive` below zero.  The code violates this: `_destroyPool`
subtracts the pool size from `clientsActive` although pooled clients were
already removed from that counter by `_releaseClient`.  On the trace
`c1ops` (start, one successfully completed query, then `stop()`), the final
`clientsActive` is `-1`. -/
theorem c1_destroy_pool_drives_clients_active_negative :
    (runOps c1ops).internal.clientsActive = -1 ∧
    ¬ (0 ≤ (runOps c1ops).internal.clientsActive) ∧
    (runOps c1ops).internal.status = "stopped" := by
  decide

/-- C2.  The claim states that a `stop(cb)` issued while `clientsActive > 0`
records `cb` and that, when the last active client is released, the pool is
drained, status becomes `"stopped"`, and the recorded `cb` is invoked with
`null`.  The drain and the `"stopped"` transition do happen, but the
recorded callback is lost: `stop()` stores it in the property
`_onDelayedStop` (`uOnDelayedStop` here) while `_idle()` passes the
distinct, never-written field `onDelayedStop` (still `null`) to `_stop`,
so `setImmediate` is issued with a `null` callback (which throws in Node)
and callback 2 never fires. -/
theorem c2_delayed_stop_callback_lost :
    (runOps c2ops).internal.status = "stopped" ∧
    (runOps c2ops).internal.uOnDelayedStop = some 2 ∧
    (runOps c2ops).events.contains (.cbCall1 none .vNull) = true ∧
    (runOps c2ops).events.filter (invokesCb 2) = [] := by
  decide

set_option maxHeartbeats 4000000 in
/-- C3 counterexample.  The claim states that `begin → query(X) → commit()`
causes exactly one Backend call whose SQL is `"BEGIN;\n" + X + "\nCOMMIT;"`.
At `X = "SELECT 1"` the code issues two Backend calls — `"BEGIN;\nSELECT 1"`
at `query` time (lazy BEGIN) and `"COMMIT;"` at `commit` time — and no call
carries the combined string. -/
theorem c3_begin_query_commit_not_single_call :
    backendCalls (runOps (c3ops "SELECT 1"))
      = [(0, "BEGIN;\nSELECT 1"), (0, "COMMIT;")] ∧
    backendCalls (runOps (c3ops "SELECT 1"))
      ≠ [(0, "BEGIN;\nSELECT 1\nCOMMIT;")] := by
  decide

set_option maxHeartbeats 4000000 in
/-- C3 amended.  `begin → query(X) → commit()` causes exactly two Backend
calls on the transaction's client: first `"BEGIN;\n" + X` (the lazy BEGIN
prefixed to the first statement), then `"COMMIT;"`.  The single combined
call `"BEGIN;\n" + X + "\nCOMMIT;"` arises from `begin → commit(X)`
(a trailing statement passed to `commit`), shown here at
`X = "INSERT INTO t VALUES(1)"`. -/
theorem c3_begin_query_commit_two_calls :
    (∀ X : String,
      backendCalls (c3client X) = [(0, "BEGIN;\n" ++ X), (0, "COMMIT;")]) ∧
    backendCalls (runOps (c3commitOps "INSERT INTO t VALUES(1)"))
      = [(0, "BEGIN;\nINSERT INTO t VALUES(1)\nCOMMIT;")] := by
  exact ⟨fun X => rfl, by decide⟩

set_option maxHeartbeats 4000000 in
/-- C4.  The claim states that a Backend query error while the driver is
running is logged, surfaced as `cb(err, null)`, and that the failing client
is destroyed (`Backend.end`) rather than pooled.  Logging and `cb(err,
null)` hold on the trace `c4ops`, but the client is returned to the idle
pool and no `end()` is issued: `_releaseClient` keeps a client whenever the
driver is running and `_failed` is false, and nothing in the source ever
sets `_failed` to true, although the field is documented as "True if the
client failed a transaction" and the destroy branch exists for it. -/
theorem c4_failing_client_pooled_not_destroyed :
    (runOps c4ops).internal.clientPool
      = [{ cid := 0, txId := -1, txState := "", failed := false,
           pooled := true, returnToPool := true, qsStored := "",
           cbStored := none }] ∧
    (runOps c4ops).events.contains
      (.appError "[xpart.sql] Query:\nSELECT 1\n"
        "[xpart.sql] connection lost") = true ∧
    (runOps c4ops).events.contains
      (.cbCall2 1 (.vBackendError "connection lost") .vNull) = true ∧
    (runOps c4ops).events.filter isBackendEnd = [] := by
  decide

/-- C5 counterexample.  The claim states that a TransactionState error
(here: `begin` while already in a transaction) is delivered as the error
(FIRST) argument of the callback.  On a concrete client with `_txId = 1`
the source issues `setImmediate(cb, null, new SQLError(...))`: the first
argument is `null` and the error is the second argument. -/
theorem c5_error_delivered_in_second_argument :
    (clientBegin 2 runningOneActive inTxClient 7).events
      = [.cbCall2 7 .vNull (.vSqlError
          "Cannot BEGIN while being in a transaction state \x7btxId=1\x7d")] ∧
    SQLValue.vNull ≠ SQLValue.vSqlError
      "Cannot BEGIN while being in a transaction state \x7btxId=1\x7d" := by
  decide

/-- C5 amended.  `begin` while in a transaction, and `commit`/`rollback`
while not in one, deliver the TransactionState `SQLError` asynchronously as
the SECOND argument of the callback (`cb(null, err)`, the first argument
being `null`), and the client returns to idle: it is pushed on the idle
pool with its transaction fields reset. -/
theorem c5_transaction_state_error_async_second_arg (k : Nat) (m : Machine)
    (c c2 : SQLClientSt) (cb : Nat)
    (hrun : m.internal.status = "running")
    (hqe : m.internal.queueItems = [])
    (hf : c.failed = false) (h1 : c.txId ≠ -1)
    (hf2 : c2.failed = false) (h2 : c2.txId = -1) :
    ((clientBegin (k+2) m c cb).events
       = m.events ++ [.cbCall2 cb .vNull (.vSqlError
           ("Cannot BEGIN while being in a transaction state \x7btxId="
             ++ toString c.txId ++ "\x7d"))] ∧
     (clientBegin (k+2) m c cb).internal.clientPool
       = { c with txId := -1, txState := "", pooled := true,
                  returnToPool := true } :: m.internal.clientPool) ∧
    ((clientCommit (k+2) m c2 none cb).events
       = m.events ++ [.cbCall2 cb .vNull (.vSqlError
           "Cannot COMMIT while not being in a transaction state")] ∧
     (clientCommit (k+2) m c2 none cb).internal.clientPool
       = { c2 with txId := -1, txState := "", pooled := true,
                   returnToPool := true } :: m.internal.clientPool) ∧
    ((clientRollback (k+2) m c2 cb).events
       = m.events ++ [.cbCall2 cb .vNull (.vSqlError
           "Cannot ROLLBACK while not being in a transaction state")] ∧
     (clientRollback (k+2) m c2 cb).internal.clientPool
       = { c2 with txId := -1, txState := "", pooled := true,
                   returnToPool := true } :: m.internal.clientPool) := by
  refine ⟨⟨?_, ?_⟩, ⟨?_, ?_⟩, ⟨?_, ?_⟩⟩ <;>
    simp [clientBegin, clientCommit, clientRollback, compileQ,
      onClientIdle, releaseClient, idleHook, emit, hrun, hqe, hf, h1,
      hf2, h2]

/-- Witness for C5 amended, at `k = 0`, the running one-active machine, the
in-transaction client, an out-of-transaction client `cid = 1`, and callback
7. -/
theorem c5_transaction_state_error_witness :
    (clientBegin 2 runningOneActive inTxClient 7).events
      = [.cbCall2 7 .vNull (.vSqlError
          "Cannot BEGIN while being in a transaction state \x7btxId=1\x7d")] := by
  have h := c5_transaction_state_error_async_second_arg 0 runningOneActive
    inTxClient { cid := 1 } 7 rfl rfl rfl (by decide) rfl rfl
  simpa [runningOneActive, inTxClient] using h.1.1

/-- C6.  For a client in a transaction with `_txState = ""` (no statement
executed yet), `commit` with no trailing statement and `rollback` each
complete with `cb(null, null)`, emit no SQL to the Backend (the event log
gains only the callback event), and return the client to idle: it is pushed
on the idle pool with `_txId` reset to `-1`.  Stated for a running driver
with an empty work queue, the situation of the released clean client. -/
theorem c6_empty_commit_rollback_no_sql (k : Nat) (m : Machine)
    (c : SQLClientSt) (cb : Nat)
    (h1 : c.txId ≠ -1) (h2 : c.txState = "")
    (h3 : m.internal.status = "running")
    (h4 : m.internal.queueItems = []) (h5 : c.failed = false) :
    ((clientCommit (k+1) m c none cb).events
       = m.events ++ [.cbCall2 cb .vNull .vNull] ∧
     (clientCommit (k+1) m c none cb).internal.clientPool
       = { c with txId := -1, txState := "", pooled := true,
                  returnToPool := true } :: m.internal.clientPool) ∧
    ((clientRollback (k+1) m c cb).events
       = m.events ++ [.cbCall2 cb .vNull .vNull] ∧
     (clientRollback (k+1) m c cb).internal.clientPool
       = { c with txId := -1, txState := "", pooled := true,
                  returnToPool := true } :: m.internal.clientPool) := by
  refine ⟨⟨?_, ?_⟩, ⟨?_, ?_⟩⟩ <;>
    simp [clientCommit, clientRollback, compileQ, onClientIdle,
      releaseClient, idleHook, emit, h1, h2, h3, h4, h5]

/-- Witness for C6, at `k = 0`, the running one-active machine, the
in-transaction client, and callback 8. -/
theorem c6_empty_commit_rollback_witness :
    (clientCommit 1 runningOneActive inTxClient none 8).events
      = [.cbCall2 8 .vNull .vNull] := by
  have h := c6_empty_commit_rollback_no_sql 0 runningOneActive inTxClient 8
    (by decide) rfl rfl rfl rfl
  simpa [runningOneActive, inTxClient] using h.1.1

/-- C7.  For a client in a transaction (`_txId ≠ -1`): when `_txState` is
still `""`, `query` prepends `"BEGIN;\n"` to the compiled SQL and moves
`_txState` to `"PENDING"` before dispatching to the Backend; when
`_txState` is no longer `""` (any subsequent query of the transaction), the
SQL is dispatched without the prefix. -/
theorem c7_lazy_begin_prefix (m : Machine) (c : SQLClientSt) (q : String)
    (cb : Nat) (h1 : c.txId ≠ -1) :
    (c.txState = "" →
      (clientQuery m c q cb).events
        = m.events ++ [.backendQuery c.cid ("BEGIN;\n" ++ q)] ∧
      (clientQuery m c q cb).outstanding
        = m.outstanding ++
          [{ c with
             txState := "PENDING",
             qsStored := "BEGIN;\n" ++ q,
             cbStored := some cb }]) ∧
    (c.txState ≠ "" →
      (clientQuery m c q cb).events = m.events ++ [.backendQuery c.cid q] ∧
      (clientQuery m c q cb).outstanding
        = m.outstanding ++
          [{ c with qsStored := q, cbStored := some cb }]) := by
  constructor
  · intro h2
    simp [clientQuery, clientQueryDispatch, compileQ, emit, h1, h2]
  · intro h2
    simp [clientQuery, clientQueryDispatch, compileQ, emit, h1, h2]

/-- Witness for C7, at the in-transaction client with `_txState = ""` and
the query `"UPDATE t SET x=1"`. -/
theorem c7_lazy_begin_prefix_witness :
    (clientQuery runningOneActive inTxClient "UPDATE t SET x=1" 9).events
      = [.backendQuery 0 "BEGIN;\nUPDATE t SET x=1"] := by
  have h := c7_lazy_begin_prefix runningOneActive inTxClient
    "UPDATE t SET x=1" 9 (by decide)
  have h2 := (h.1 rfl).1
  simpa [runningOneActive, inTxClient] using h2

/-- C8.  When `_scheduleWork` runs with a non-empty work queue: if the idle
pool is non-empty, exactly one client is popped (`clientsActive` grows by
one, the pool loses its head) and the head queue item is dispatched onto it
— as `query` when its `qs` is non-null, as `begin` when it is null; if the
pool is empty and `clientsCount < clientsMaximum`, `clientsCount` is
incremented and a connection request is issued while the queue is left
unpopped; otherwise the state is unchanged. -/
theorem c8_schedule_work_cases (n : Nat) (m : Machine) (it : QueueItem)
    (qrest : List QueueItem)
    (hq : m.internal.queueItems = it :: qrest) :
    (∀ c ps, m.internal.clientPool = c :: ps →
      scheduleWork (n+2) m =
        (let m1 := { m with internal := { m.internal with
            clientPool := ps,
            clientsActive := m.internal.clientsActive + 1,
            queueItems := qrest } }
         let c1 := { c with pooled := false }
         match it.qs with
         | some s => clientQuery m1 c1 s it.cb
         | none => clientBegin n m1 c1 it.cb)) ∧
    (m.internal.clientPool = [] →
      m.internal.clientsCount < m.internal.clientsMaximum →
      scheduleWork (n+2) m =
        emit { m with internal := { m.internal with
            clientsCount := m.internal.clientsCount + 1 } }
          .backendConnectReq ∧
      (scheduleWork (n+2) m).internal.queueItems = it :: qrest) ∧
    (m.internal.clientPool = [] →
      ¬ m.internal.clientsCount < m.internal.clientsMaximum →
      scheduleWork (n+2) m = m) := by
  refine ⟨?_, ?_, ?_⟩
  · intro c ps hp
    simp [scheduleWork, handleQueue, getClientFromPool, hq, hp]
  · intro hp hcnt
    simp [scheduleWork, getClientFromPool, emit, hq, hp, hcnt]
  · intro hp hcnt
    simp [scheduleWork, getClientFromPool, hq, hp, hcnt]

/-- Witness for C8, at a fresh running driver whose queue holds one query
item: the pool is empty and `0 < 20`, so scheduling requests a connection
and leaves the queue unpopped. -/
theorem c8_schedule_work_witness :
    scheduleWork 2
        { internal := { status := "running",
                        queueItems := [⟨some "SELECT 1", 4⟩] } } =
      emit { internal := { status := "running", clientsCount := 1,
                           queueItems := [⟨some "SELECT 1", 4⟩] } }
        .backendConnectReq := by
  have h := c8_schedule_work_cases 0
    { internal := { status := "running",
                    queueItems := [⟨some "SELECT 1", 4⟩] } }
    ⟨some "SELECT 1", 4⟩ [] rfl
  have h2 := (h.2.1 rfl (by decide)).1
  simpa using h2

set_option maxHeartbeats 4000000 in
/-- C9 counterexample.  The claim states that when A is enqueued strictly
before B, A is dequeued and dispatched before B AND, when both succeed, A's
callback fires before B's.  On the trace `c9ops`, A (callback 1) and B
(callback 2) both enter the queue, A is dispatched first (`(0, "A")`
precedes `(1, "B")` in the Backend call order) — but the two queries run on
different clients and client 1's answer arrives first, so B's success
callback fires before A's: the callback-order half of the claim is false. -/
theorem c9_callback_order_not_fifo :
    backendCalls (runOps c9ops) = [(0, "A"), (1, "B")] ∧
    successCbs (runOps c9ops) = [2, 1] := by
  decide

/-- C9 amended.  The work queue itself is strict FIFO: over any sequence of
enqueue (`_addToQueue`) and dequeue (`_handleQueue`) operations, the
dispatched sequence followed by the waiting queue equals the enqueue-order
sequence; hence the dispatched sequence is exactly an initial segment of
the enqueue order — if A is enqueued strictly before B, A is dequeued and
dispatched strictly before B.  The callback-order clause of the original
claim holds only per client: completions of queries dispatched to
different clients may arrive, and hence fire their callbacks, in any
order. -/
theorem c9_dispatch_order_fifo (ops : List QOp) :
    (qrun ops).2 ++ (qrun ops).1 = enqueuedOf ops ∧
    (qrun ops).2 = (enqueuedOf ops).take (qrun ops).2.length := by
  have h2 : (qrun ops).2 ++ (qrun ops).1 = enqueuedOf ops := by
    simpa [qrun] using qstep_invariant ops [] []
  exact ⟨h2, by rw [← h2, List.take_left]⟩

/-- C10.  `SQLDriver.query(q, cb, tx)` with a non-null `tx` delegates to
`tx.query(compile(q), cb)` before the driver-status check: whatever the
driver status `s` (including `"stopping"` and `"stopped"`), the query is
dispatched to the Backend on the transaction's client (with the lazy-BEGIN
prefix when the transaction has not started), and no DriverState error
callback is issued. -/
theorem c10_tx_query_bypasses_status_check (fuel : Nat) (m : Machine)
    (c : SQLClientSt) (q : String) (cb : Nat) (s : String)
    (h : m.held = [c]) :
    (driverQuery fuel
        { m with internal := { m.internal with status := s } }
        q cb (some c.cid)).events
      = m.events ++
        [.backendQuery c.cid
          (if c.txId ≠ -1 ∧ c.txState = "" then "BEGIN;\n" ++ q
           else q)] := by
  by_cases htx : c.txId ≠ -1 ∧ c.txState = "" <;>
    simp [driverQuery, txQuery, takeHeld, compileQ, h, clientQuery,
      clientQueryDispatch, emit, htx]

/-- Witness for C10: on a driver whose status is `"stopped"`, a query bound
to the in-transaction client is still dispatched to the Backend. -/
theorem c10_tx_query_witness :
    (driverQuery 1
        { runningOneActive with
          held := [inTxClient],
          internal := { runningOneActive.internal with
            status := "stopped" } }
        "SELECT 1" 3 (some 0)).events
      = [.backendQuery 0 "BEGIN;\nSELECT 1"] := by
  have h := c10_tx_query_bypasses_status_check 1
    { runningOneActive with held := [inTxClient] } inTxClient
    "SELECT 1" 3 "stopped" rfl
  simpa [runningOneActive, inTxClient] using h

end XpartSql
